import Mathlib

/-!
Verification of the Code Generation page core of the Collab repository.

The embedding translates `src/app/code-generation/page.tsx`:
the template renderer `generateMockCode`, the interaction controller
`generateCode` (validation, ledger prepend, notifications), the file
extension table `getFileExtension`, and the download filename rule.
Machine state (the React component state) is an explicit `PageState`
record; a generation request is a state transition parameterised by the
completion time `now` (the value of `Date.now()` when the simulated
delay finishes).  The bounded-retention ledger of the persistence layer
(not part of the sources) is modelled from the spec as `appendBounded`.
-/

namespace Collab

/-- An artifact of a successful generation; mirrors the `GeneratedCode`
interface of the page (`timestamp : Date` is modelled as milliseconds). -/
structure GeneratedCode where
  id : String
  language : String
  type : String
  code : String
  description : String
  timestamp : Nat
  deriving DecidableEq

/-- A toast notification as produced by calls to `toast(\x7b...\x7d)`:
a title, a description and an optional variant. -/
structure Toast where
  title : String
  description : String
  variant : Option String
  deriving DecidableEq

/-- The component state held by `CodeGenerationPage` via `useState`. -/
structure PageState where
  prompt : String
  selectedLanguage : String
  selectedType : String
  isGenerating : Bool
  generatedCodes : List GeneratedCode
  deriving DecidableEq

/-- JavaScript `String.prototype.trim`: remove leading and trailing
whitespace characters. -/
def trim (s : String) : String :=
  ⟨((s.data.dropWhile Char.isWhitespace).reverse.dropWhile Char.isWhitespace).reverse⟩

def jsFunctionTemplate (prompt : String) : String :=
  "// Generated JavaScript function based on: \"" ++ prompt ++ "\"\nfunction processData(input) \x7b\n    try \x7b\n        // Validate input\n        if (!input || typeof input !== \x27object\x27) \x7b\n            throw new Error(\x27Invalid input provided\x27);\n        \x7d\n        \n        // Process the data\n        const result = \x7b\n            processed: true,\n            timestamp: new Date().toISOString(),\n            data: input\n        \x7d;\n        \n        // Apply transformations\n        if (input.items && Array.isArray(input.items)) \x7b\n            result.data.items = input.items.map(item => (\x7b\n                ...item,\n                processed: true\n            \x7d));\n        \x7d\n        \n        return result;\n    \x7d catch (error) \x7b\n        console.error(\x27Processing failed:\x27, error);\n        return \x7b error: error.message \x7d;\n    \x7d\n\x7d\n\n// Usage example\nconst sampleData = \x7b items: [\x7b id: 1, name: \x27test\x27 \x7d] \x7d;\nconst result = processData(sampleData);\nconsole.log(result);"

def jsApiTemplate (prompt : String) : String :=
  "// Generated Express.js API endpoint based on: \"" ++ prompt ++ "\"\nconst express = require(\x27express\x27);\nconst router = express.Router();\n\n// Middleware for validation\nconst validateRequest = (req, res, next) => \x7b\n    const \x7b body \x7d = req;\n    \n    if (!body || Object.keys(body).length === 0) \x7b\n        return res.status(400).json(\x7b\n            error: \x27Request body is required\x27\n        \x7d);\n    \x7d\n    \n    next();\n\x7d;\n\n// Main API endpoint\nrouter.post(\x27/api/process\x27, validateRequest, async (req, res) => \x7b\n    try \x7b\n        const \x7b data \x7d = req.body;\n        \n        // Process the request\n        const processedData = \x7b\n            id: Date.now(),\n            originalData: data,\n            processed: true,\n            timestamp: new Date().toISOString()\n        \x7d;\n        \n        // Simulate async processing\n        await new Promise(resolve => setTimeout(resolve, 100));\n        \n        res.status(200).json(\x7b\n            success: true,\n            data: processedData\n        \x7d);\n        \n    \x7d catch (error) \x7b\n        console.error(\x27API Error:\x27, error);\n        res.status(500).json(\x7b\n            error: \x27Internal server error\x27,\n            message: error.message\n        \x7d);\n    \x7d\n\x7d);\n\nmodule.exports = router;"

def pythonFunctionTemplate (prompt : String) : String :=
  "# Generated Python function based on: \"" ++ prompt ++ "\"\nfrom typing import Dict, Any, Optional\nimport json\nfrom datetime import datetime\n\ndef process_data(input_data: Dict[str, Any]) -> Dict[str, Any]:\n    \"\"\"\n    Process input data and return structured result.\n    \n    Args:\n        input_data: Dictionary containing data to process\n        \n    Returns:\n        Dictionary with processed results\n        \n    Raises:\n        ValueError: If input data is invalid\n    \"\"\"\n    try:\n        # Validate input\n        if not isinstance(input_data, dict):\n            raise ValueError(\"Input must be a dictionary\")\n        \n        # Process the data\n        result = \x7b\n            \"processed\": True,\n            \"timestamp\": datetime.now().isoformat(),\n            \"data\": input_data.copy()\n        \x7d\n        \n        # Apply transformations\n        if \"items\" in input_data and isinstance(input_data[\"items\"], list):\n            result[\"data\"][\"items\"] = [\n                \x7b**item, \"processed\": True\x7d \n                for item in input_data[\"items\"]\n            ]\n        \n        return result\n        \n    except Exception as e:\n        return \x7b\"error\": str(e)\x7d\n\n# Usage example\nif __name__ == \"__main__\":\n    sample_data = \x7b\"items\": [\x7b\"id\": 1, \"name\": \"test\"\x7d]\x7d\n    result = process_data(sample_data)\n    print(json.dumps(result, indent=2))"

def pythonClassTemplate (prompt : String) : String :=
  "# Generated Python class based on: \"" ++ prompt ++ "\"\nfrom typing import List, Dict, Any, Optional\nfrom datetime import datetime\nimport logging\n\nclass DataProcessor:\n    \"\"\"\n    A class for processing and managing data operations.\n    \"\"\"\n    \n    def __init__(self, config: Optional[Dict[str, Any]] = None):\n        \"\"\"\n        Initialize the DataProcessor.\n        \n        Args:\n            config: Optional configuration dictionary\n        \"\"\"\n        self.config = config or \x7b\x7d\n        self.processed_items: List[Dict[str, Any]] = []\n        self.logger = logging.getLogger(__name__)\n        \n    def add_item(self, item: Dict[str, Any]) -> bool:\n        \"\"\"\n        Add an item to be processed.\n        \n        Args:\n            item: Dictionary containing item data\n            \n        Returns:\n            True if item was added successfully\n        \"\"\"\n        try:\n            validated_item = self._validate_item(item)\n            self.processed_items.append(validated_item)\n            self.logger.info(f\"Added item: \x7bvalidated_item.get(\x27id\x27, \x27unknown\x27)\x7d\")\n            return True\n        except Exception as e:\n            self.logger.error(f\"Failed to add item: \x7be\x7d\")\n            return False\n    \n    def process_all(self) -> List[Dict[str, Any]]:\n        \"\"\"\n        Process all added items.\n        \n        Returns:\n            List of processed items\n        \"\"\"\n        results = []\n        for item in self.processed_items:\n            processed_item = self._process_item(item)\n            results.append(processed_item)\n        \n        return results\n    \n    def _validate_item(self, item: Dict[str, Any]) -> Dict[str, Any]:\n        \"\"\"Validate and prepare item for processing.\"\"\"\n        if not isinstance(item, dict):\n            raise ValueError(\"Item must be a dictionary\")\n        \n        return \x7b\n            **item,\n            \"added_at\": datetime.now().isoformat(),\n            \"status\": \"pending\"\n        \x7d\n    \n    def _process_item(self, item: Dict[str, Any]) -> Dict[str, Any]:\n        \"\"\"Process a single item.\"\"\"\n        return \x7b\n            **item,\n            \"processed_at\": datetime.now().isoformat(),\n            \"status\": \"completed\"\n        \x7d\n\n# Usage example\nif __name__ == \"__main__\":\n    processor = DataProcessor(\x7b\"debug\": True\x7d)\n    processor.add_item(\x7b\"id\": 1, \"name\": \"test item\"\x7d)\n    results = processor.process_all()\n    print(results)"

def javaClassTemplate (prompt : String) : String :=
  "// Generated Java class based on: \"" ++ prompt ++ "\"\nimport java.time.LocalDateTime;\nimport java.time.format.DateTimeFormatter;\nimport java.util.*;\nimport java.util.logging.Logger;\n\npublic class DataProcessor \x7b\n    private static final Logger logger = Logger.getLogger(DataProcessor.class.getName());\n    private final Map<String, Object> config;\n    private final List<Map<String, Object>> processedItems;\n    \n    public DataProcessor() \x7b\n        this(new HashMap<>());\n    \x7d\n    \n    public DataProcessor(Map<String, Object> config) \x7b\n        this.config = config;\n        this.processedItems = new ArrayList<>();\n    \x7d\n    \n    public boolean addItem(Map<String, Object> item) \x7b\n        try \x7b\n            Map<String, Object> validatedItem = validateItem(item);\n            processedItems.add(validatedItem);\n            logger.info(\"Added item: \" + validatedItem.getOrDefault(\"id\", \"unknown\"));\n            return true;\n        \x7d catch (Exception e) \x7b\n            logger.severe(\"Failed to add item: \" + e.getMessage());\n            return false;\n        \x7d\n    \x7d\n    \n    public List<Map<String, Object>> processAll() \x7b\n        List<Map<String, Object>> results = new ArrayList<>();\n        for (Map<String, Object> item : processedItems) \x7b\n            Map<String, Object> processedItem = processItem(item);\n            results.add(processedItem);\n        \x7d\n        return results;\n    \x7d\n    \n    private Map<String, Object> validateItem(Map<String, Object> item) \x7b\n        if (item == null) \x7b\n            throw new IllegalArgumentException(\"Item cannot be null\");\n        \x7d\n        \n        Map<String, Object> validatedItem = new HashMap<>(item);\n        validatedItem.put(\"addedAt\", LocalDateTime.now().format(DateTimeFormatter.ISO_LOCAL_DATE_TIME));\n        validatedItem.put(\"status\", \"pending\");\n        \n        return validatedItem;\n    \x7d\n    \n    private Map<String, Object> processItem(Map<String, Object> item) \x7b\n        Map<String, Object> processedItem = new HashMap<>(item);\n        processedItem.put(\"processedAt\", LocalDateTime.now().format(DateTimeFormatter.ISO_LOCAL_DATE_TIME));\n        processedItem.put(\"status\", \"completed\");\n        \n        return processedItem;\n    \x7d\n    \n    // Usage example\n    public static void main(String[] args) \x7b\n        DataProcessor processor = new DataProcessor();\n        \n        Map<String, Object> item = new HashMap<>();\n        item.put(\"id\", 1);\n        item.put(\"name\", \"test item\");\n        \n        processor.addItem(item);\n        List<Map<String, Object>> results = processor.processAll();\n        \n        System.out.println(results);\n    \x7d\n\x7d"

def fallbackTemplate (language typ prompt : String) : String :=
  "// Generated " ++ language ++ " " ++ typ ++ " based on: \"" ++ prompt ++ "\"\n// This is a placeholder implementation\n// Please provide more specific requirements for better code generation\n\nconsole.log(\"Generated code for: " ++ prompt ++ "\");"

/-- The renderer `generateMockCode(prompt, language, type)`: nested
string matches on `language` and `type`, with unmatched combinations
falling through to the final generic fallback template. -/
def generateMockCode (prompt language typ : String) : String :=
  if language = "javascript" then
    if typ = "function" then jsFunctionTemplate prompt
    else if typ = "api" then jsApiTemplate prompt
    else fallbackTemplate language typ prompt
  else if language = "python" then
    if typ = "function" then pythonFunctionTemplate prompt
    else if typ = "class" then pythonClassTemplate prompt
    else fallbackTemplate language typ prompt
  else if language = "java" then
    if typ = "class" then javaClassTemplate prompt
    else fallbackTemplate language typ prompt
  else fallbackTemplate language typ prompt

/-- The validation toast emitted when the prompt is empty after trimming. -/
def promptRequiredToast : Toast :=
  { title := "Prompt Required",
    description := "Please enter a description of what you want to generate.",
    variant := some "destructive" }

/-- The success toast emitted after a generation completes. -/
def codeGeneratedToast (language typ : String) : Toast :=
  { title := "Code Generated",
    description := language ++ " " ++ typ ++ " has been generated successfully.",
    variant := none }

/-- The artifact built by `generateCode` on the success path:
`id` is `Date.now().toString()` and `timestamp` is the creation time. -/
def mkGeneratedCode (s : PageState) (now : Nat) : GeneratedCode :=
  { id := Nat.repr now,
    language := s.selectedLanguage,
    type := s.selectedType,
    code := generateMockCode s.prompt s.selectedLanguage s.selectedType,
    description := s.prompt,
    timestamp := now }

/-- One `generateCode` request, from click to completion.  A blank
prompt is rejected with a single destructive toast and no state change;
otherwise the rendered artifact is prepended to `generatedCodes`, the
prompt is cleared, the in-flight flag ends `false`, and a success toast
is emitted.  `now` is the clock value when the simulated delay ends. -/
def generateCode (s : PageState) (now : Nat) : PageState × List Toast :=
  if trim s.prompt = "" then
    (s, [promptRequiredToast])
  else
    ({ s with
        generatedCodes := mkGeneratedCode s now :: s.generatedCodes,
        prompt := "",
        isGenerating := false },
     [codeGeneratedToast s.selectedLanguage s.selectedType])

/-- The artifact produced by a request that set the prompt to `e.1` and
completed at time `e.2`, in a state with the given language and type. -/
def artifactOf (language typ : String) (e : String × Nat) : GeneratedCode :=
  { id := Nat.repr e.2,
    language := language,
    type := typ,
    code := generateMockCode e.1 language typ,
    description := e.1,
    timestamp := e.2 }

/-- A session: for each event `(p, t)` the user types prompt `p` and the
request completes at time `t`. -/
def runGen (s : PageState) : List (String × Nat) → PageState
  | [] => s
  | e :: rest => runGen (generateCode { s with prompt := e.1 } e.2).1 rest

/-- The fixed language-to-extension table of `getFileExtension`. -/
def extensions : List (String × String) :=
  [("javascript", "js"), ("typescript", "ts"), ("python", "py"),
   ("java", "java"), ("go", "go"), ("rust", "rs"), ("cpp", "cpp"),
   ("csharp", "cs")]

/-- `getFileExtension(language)`: table lookup with fallback `"txt"`. -/
def getFileExtension (language : String) : String :=
  ((extensions.lookup language).getD "txt")

/-- The filename used by `downloadCode`:
`generated-<type>-<id>.<extension>`. -/
def downloadFilename (code : GeneratedCode) : String :=
  "generated-" ++ code.type ++ "-" ++ code.id ++ "." ++ getFileExtension code.language

/-- Modelled from the spec: the bounded Ledger append of the surrounding
persistence layer (the `generated_code` collection capped at a
configured maximum; the cap itself is external to the page sources).
New artifacts sit at the head; when the count would exceed `cap` the
oldest entries (at the tail of the most-recent-first list) are evicted. -/
def appendBounded (cap : Nat) (artifact : GeneratedCode) (ledger : List GeneratedCode) :
    List GeneratedCode :=
  (artifact :: ledger).take cap

/-- Modelled from the spec: the Ledger contents after appending the
given artifacts in order (head of `artifacts` appended first) under
cap `cap`, starting from an empty Ledger. -/
def ledgerOf (cap : Nat) (artifacts : List GeneratedCode) : List GeneratedCode :=
  artifacts.foldl (fun led a => appendBounded cap a led) []

/-- The five-entry template catalog named by the spec, stated as plain
data so that the renderer can be compared against catalog lookup plus
generic fallback. -/
def specCatalog : List ((String × String) × (String → String)) :=
  [(("javascript", "function"), jsFunctionTemplate),
   (("javascript", "api"), jsApiTemplate),
   (("python", "function"), pythonFunctionTemplate),
   (("python", "class"), pythonClassTemplate),
   (("java", "class"), javaClassTemplate)]

/-- A sample artifact for concrete witnesses. -/
def sampleArtifact (n : Nat) : GeneratedCode :=
  { id := Nat.repr n, language := "javascript", type := "function",
    code := "x", description := "sample", timestamp := n }

/-- A sample initial page state for concrete witnesses. -/
def sampleState : PageState :=
  { prompt := "", selectedLanguage := "javascript", selectedType := "function",
    isGenerating := false, generatedCodes := [] }


/-! ### Helper lemmas -/

theorem append_length_pos (a b : String) (h : 0 < a.length) : 0 < (a ++ b).length := by
  rw [String.length_append]
  omega

theorem generateCode_success_fst (s : PageState) (now : Nat) (h : ¬ trim s.prompt = "") :
    (generateCode s now).1 =
      { s with
          generatedCodes := mkGeneratedCode s now :: s.generatedCodes,
          prompt := "",
          isGenerating := false } := by
  unfold generateCode
  rw [if_neg h]

theorem generateCode_success_snd (s : PageState) (now : Nat) (h : ¬ trim s.prompt = "") :
    (generateCode s now).2 = [codeGeneratedToast s.selectedLanguage s.selectedType] := by
  unfold generateCode
  rw [if_neg h]

/-! ### Claim theorems -/

/-- Claim C3: a generate call whose prompt trims to the empty string
leaves the whole component state unchanged (prompt retained, in-flight
flag untouched, ledger untouched, hence no render recorded) and emits
exactly the single destructive validation toast. -/
theorem generate_blank_prompt_rejected (s : PageState) (now : Nat) (h : trim s.prompt = "") :
    (generateCode s now).1 = s ∧ (generateCode s now).2 = [promptRequiredToast] := by
  unfold generateCode
  rw [if_pos h]
  exact ⟨rfl, rfl⟩

/-- Concrete instance of the validation gate for a whitespace-only prompt. -/
theorem generate_blank_prompt_rejected_witness :
    (generateCode { sampleState with prompt := "   " } 7).1 = { sampleState with prompt := "   " } ∧
    (generateCode { sampleState with prompt := "   " } 7).2 = [promptRequiredToast] :=
  generate_blank_prompt_rejected { sampleState with prompt := "   " } 7 (by decide)

/-- Claim C4: for every language, type and description the renderer
returns a non-empty string (matched and unmatched pairs alike; the
function is total, so it cannot raise). -/
theorem generateMockCode_nonempty (p l t : String) : 0 < (generateMockCode p l t).length := by
  unfold generateMockCode jsFunctionTemplate jsApiTemplate pythonFunctionTemplate
    pythonClassTemplate javaClassTemplate fallbackTemplate
  repeat' split
  all_goals repeat apply append_length_pos
  all_goals decide

/-- Claim C5: for every non-empty description the rendered output
contains the description verbatim as a substring, in catalog-matched
and fallback renders alike. -/
theorem rendered_contains_description (p l t : String) (_h : ¬ p = "") :
    ∃ pre post : String, generateMockCode p l t = pre ++ p ++ post := by
  unfold generateMockCode jsFunctionTemplate jsApiTemplate pythonFunctionTemplate
    pythonClassTemplate javaClassTemplate fallbackTemplate
  repeat' split
  all_goals exact ⟨_, _, rfl⟩

/-- Concrete instance of description embedding for a fallback render. -/
theorem rendered_contains_description_witness :
    ∃ pre post : String,
      generateMockCode "add two numbers" "go" "function" = pre ++ "add two numbers" ++ post :=
  rendered_contains_description "add two numbers" "go" "function" (by decide)

/-- Claim C8: the renderer is deterministic: two invocations on equal
(description, language, type) triples return equal strings; the result
depends on nothing but the three inputs. -/
theorem renderer_deterministic (d₁ l₁ t₁ d₂ l₂ t₂ : String)
    (hd : d₁ = d₂) (hl : l₁ = l₂) (ht : t₁ = t₂) :
    generateMockCode d₁ l₁ t₁ = generateMockCode d₂ l₂ t₂ := by
  rw [hd, hl, ht]

/-- Concrete instance of renderer determinism. -/
theorem renderer_deterministic_witness :
    generateMockCode "a" "javascript" "api" = generateMockCode "a" "javascript" "api" :=
  renderer_deterministic "a" "javascript" "api" "a" "javascript" "api" rfl rfl rfl


/-- Claim C6: the ledger is most-recent-first: generating with prompt
`pA` (completing at `tA`) and then with prompt `pB` (completing at
`tB`) leaves the ledger with the artifact of B at the head, in front of
the artifact of A and the prior contents; reading is plain field
access, with no sort. -/
theorem ledger_most_recent_first (s : PageState) (pA pB : String) (tA tB : Nat)
    (hA : ¬ trim pA = "") (hB : ¬ trim pB = "") :
    (generateCode
        { (generateCode { s with prompt := pA } tA).1 with prompt := pB } tB).1.generatedCodes
      = artifactOf s.selectedLanguage s.selectedType (pB, tB)
        :: artifactOf s.selectedLanguage s.selectedType (pA, tA)
        :: s.generatedCodes := by
  rw [generateCode_success_fst { s with prompt := pA } tA hA]
  rw [generateCode_success_fst _ tB hB]
  rfl

/-- Concrete instance of most-recent-first ordering. -/
theorem ledger_most_recent_first_witness :
    (generateCode
        { (generateCode { sampleState with prompt := "first" } 1).1 with prompt := "second" }
        2).1.generatedCodes
      = artifactOf "javascript" "function" ("second", 2)
        :: artifactOf "javascript" "function" ("first", 1)
        :: [] :=
  ledger_most_recent_first sampleState "first" "second" 1 2 (by decide) (by decide)

/-- Claim C7: the extension table maps exactly the eight known
languages, `"python"` resolves to `"py"`, every language outside the
table resolves to the generic fallback `"txt"`, and the download
filename is `generated-<type>-<id>.<extension>`. -/
theorem extension_resolution :
    getFileExtension "python" = "py" ∧
    extensions.map Prod.fst =
      ["javascript", "typescript", "python", "java", "go", "rust", "cpp", "csharp"] ∧
    (∀ language : String,
        ¬ language ∈ ["javascript", "typescript", "python", "java", "go", "rust", "cpp", "csharp"] →
        getFileExtension language = "txt") ∧
    (∀ code : GeneratedCode,
        downloadFilename code =
          "generated-" ++ code.type ++ "-" ++ code.id ++ "." ++ getFileExtension code.language) := by
  refine ⟨by decide, by decide, ?_, fun _ => rfl⟩
  intro language h
  simp only [List.mem_cons, List.not_mem_nil, or_false, not_or] at h
  obtain ⟨h1, h2, h3, h4, h5, h6, h7, h8⟩ := h
  simp [getFileExtension, extensions, List.lookup,
    beq_eq_false_iff_ne.mpr h1, beq_eq_false_iff_ne.mpr h2, beq_eq_false_iff_ne.mpr h3,
    beq_eq_false_iff_ne.mpr h4, beq_eq_false_iff_ne.mpr h5, beq_eq_false_iff_ne.mpr h6,
    beq_eq_false_iff_ne.mpr h7, beq_eq_false_iff_ne.mpr h8]

/-- Concrete instance of fallback extension resolution. -/
theorem extension_resolution_witness : getFileExtension "lolcode" = "txt" :=
  extension_resolution.2.2.1 "lolcode" (by decide)

/-- Claim C10: a successful generate call grows the ledger by exactly
one artifact, prepending the new artifact while every previously stored
artifact survives unmodified, in its previous relative order (the old
ledger is a suffix of the new one). -/
theorem generate_appends_exactly_one (s : PageState) (now : Nat) (h : ¬ trim s.prompt = "") :
    (generateCode s now).1.generatedCodes = mkGeneratedCode s now :: s.generatedCodes ∧
    (generateCode s now).1.generatedCodes.length = s.generatedCodes.length + 1 ∧
    List.IsSuffix s.generatedCodes (generateCode s now).1.generatedCodes := by
  rw [generateCode_success_fst s now h]
  exact ⟨rfl, by simp, ⟨[mkGeneratedCode s now], rfl⟩⟩

/-- Concrete instance of the append-only frame property. -/
theorem generate_appends_exactly_one_witness :
    (generateCode
        { sampleState with prompt := "hello", generatedCodes := [sampleArtifact 0] }
        9).1.generatedCodes
      = mkGeneratedCode
          { sampleState with prompt := "hello", generatedCodes := [sampleArtifact 0] } 9
        :: [sampleArtifact 0] ∧
    (generateCode
        { sampleState with prompt := "hello", generatedCodes := [sampleArtifact 0] }
        9).1.generatedCodes.length = [sampleArtifact 0].length + 1 ∧
    List.IsSuffix [sampleArtifact 0]
      (generateCode
        { sampleState with prompt := "hello", generatedCodes := [sampleArtifact 0] }
        9).1.generatedCodes :=
  generate_appends_exactly_one
    { sampleState with prompt := "hello", generatedCodes := [sampleArtifact 0] } 9 (by decide)


/-- Claim C9: exactly the five pairs listed in `specCatalog` carry
dedicated templates -- each catalog entry renders its own template
function -- and every pair outside the catalog, valid enumeration
combinations included, renders the generic fallback template. -/
theorem catalog_exactly_five :
    specCatalog.map Prod.fst =
      [("javascript", "function"), ("javascript", "api"), ("python", "function"),
       ("python", "class"), ("java", "class")] ∧
    (∀ pr ∈ specCatalog, ∀ p : String, generateMockCode p pr.1.1 pr.1.2 = pr.2 p) ∧
    (∀ p l t : String, ¬ (l, t) ∈ specCatalog.map Prod.fst →
        generateMockCode p l t = fallbackTemplate l t p) := by
  have hcat : ∀ pr ∈ specCatalog, ∀ p : String, generateMockCode p pr.1.1 pr.1.2 = pr.2 p := by
    intro pr hpr p
    simp only [specCatalog, List.mem_cons, List.not_mem_nil, or_false] at hpr
    rcases hpr with h | h | h | h | h <;> subst h <;> rfl
  have hother : ∀ p l t : String, ¬ (l, t) ∈ specCatalog.map Prod.fst →
      generateMockCode p l t = fallbackTemplate l t p := by
    intro p l t h
    simp only [specCatalog, List.map_cons, List.map_nil, List.mem_cons, List.not_mem_nil,
      or_false, not_or, Prod.mk.injEq, not_and] at h
    obtain ⟨h1, h2, h3, h4, h5⟩ := h
    unfold generateMockCode
    split
    · rename_i hl
      split
      · rename_i ht
        exact absurd ht (h1 hl)
      · split
        · rename_i ht
          exact absurd ht (h2 hl)
        · rfl
    · split
      · rename_i hl
        split
        · rename_i ht
          exact absurd ht (h3 hl)
        · split
          · rename_i ht
            exact absurd ht (h4 hl)
          · rfl
      · split
        · rename_i hl
          split
          · rename_i ht
            exact absurd ht (h5 hl)
          · rfl
        · rfl
  exact ⟨by decide, hcat, hother⟩

/-- Concrete instance: the valid pair (typescript, function) has no
dedicated template and falls back. -/
theorem catalog_exactly_five_witness :
    generateMockCode "d" "typescript" "function" = fallbackTemplate "typescript" "function" "d" :=
  catalog_exactly_five.2.2 "d" "typescript" "function" (by decide)


/-! ### Injectivity of the decimal id (`Date.now().toString()`) -/

theorem toDigitsCore_eq_digits :
    ∀ (f n : Nat) (l : List Char), 0 < n → n < 10 ^ f →
      Nat.toDigitsCore 10 f n l = ((Nat.digits 10 n).map Nat.digitChar).reverse ++ l := by
  intro f
  induction f with
  | zero =>
    intro n l hn hf
    rw [pow_zero] at hf
    omega
  | succ f ih =>
    intro n l hn hf
    rw [show Nat.toDigitsCore 10 (f + 1) n l
          = if n / 10 = 0 then Nat.digitChar (n % 10) :: l
            else Nat.toDigitsCore 10 f (n / 10) (Nat.digitChar (n % 10) :: l) from rfl]
    by_cases h10 : n / 10 = 0
    · rw [if_pos h10, Nat.digits_def' (by norm_num : (1 : Nat) < 10) hn, h10, Nat.digits_zero]
      simp
    · rw [if_neg h10]
      have hpos : 0 < n / 10 := Nat.pos_of_ne_zero h10
      have hlt : n / 10 < 10 ^ f := by
        rw [pow_succ] at hf
        omega
      rw [ih (n / 10) (Nat.digitChar (n % 10) :: l) hpos hlt]
      rw [Nat.digits_def' (by norm_num : (1 : Nat) < 10) hn]
      simp

theorem natRepr_eq_digits (n : Nat) (hn : 0 < n) :
    Nat.repr n = (((Nat.digits 10 n).map Nat.digitChar).reverse).asString := by
  show (Nat.toDigits 10 n).asString = _
  rw [show Nat.toDigits 10 n = Nat.toDigitsCore 10 (n + 1) n [] from rfl]
  rw [toDigitsCore_eq_digits (n + 1) n [] hn
      (lt_of_lt_of_le (Nat.lt_pow_self (by norm_num) n)
        (Nat.pow_le_pow_right (by norm_num) (Nat.le_succ n)))]
  simp

theorem data_asString (l : List Char) : (l.asString).data = l := rfl

theorem digitChar_toNat_sub : ∀ d : Nat, d < 10 → (Nat.digitChar d).toNat - 48 = d := by decide

theorem map_digitChar_cancel :
    ∀ l : List Nat, (∀ x ∈ l, x < 10) →
      l.map (fun d => (Nat.digitChar d).toNat - 48) = l := by
  intro l
  induction l with
  | nil => intro _; rfl
  | cons d l ih =>
    intro hl
    simp only [List.map_cons]
    rw [digitChar_toNat_sub d (hl d (List.mem_cons_self d l)),
      ih (fun x hx => hl x (List.mem_cons_of_mem d hx))]

theorem eq_of_natRepr_eq_pos (a b : Nat) (ha : 0 < a) (hb : 0 < b)
    (h : Nat.repr a = Nat.repr b) : a = b := by
  rw [natRepr_eq_digits a ha, natRepr_eq_digits b hb] at h
  have hdata := congrArg String.data h
  rw [data_asString, data_asString] at hdata
  have h2 : (Nat.digits 10 a).map Nat.digitChar = (Nat.digits 10 b).map Nat.digitChar := by
    have := congrArg List.reverse hdata
    simpa using this
  have h3 := congrArg (List.map fun c : Char => c.toNat - 48) h2
  rw [List.map_map, List.map_map] at h3
  rw [show ((fun c : Char => c.toNat - 48) ∘ Nat.digitChar)
        = fun d => (Nat.digitChar d).toNat - 48 from rfl] at h3
  rw [map_digitChar_cancel _ (fun x hx => Nat.digits_lt_base (by norm_num) hx),
    map_digitChar_cancel _ (fun x hx => Nat.digits_lt_base (by norm_num) hx)] at h3
  have h4 := congrArg (Nat.ofDigits 10) h3
  rwa [Nat.ofDigits_digits, Nat.ofDigits_digits] at h4

theorem natRepr_pos_ne_zero_str (b : Nat) (hb : 0 < b) (h : Nat.repr b = "0") : False := by
  rw [natRepr_eq_digits b hb] at h
  have hdata := congrArg String.data h
  rw [data_asString] at hdata
  rw [show ("0" : String).data = ['0'] from rfl] at hdata
  have h2 : (Nat.digits 10 b).map Nat.digitChar = ['0'] := by
    have := congrArg List.reverse hdata
    simpa using this
  have h3 := congrArg (List.map fun c : Char => c.toNat - 48) h2
  rw [List.map_map] at h3
  rw [show ((fun c : Char => c.toNat - 48) ∘ Nat.digitChar)
        = fun d => (Nat.digitChar d).toNat - 48 from rfl] at h3
  rw [map_digitChar_cancel _ (fun x hx => Nat.digits_lt_base (by norm_num) hx)] at h3
  have h4 := congrArg (Nat.ofDigits 10) h3
  rw [Nat.ofDigits_digits] at h4
  simp [Nat.ofDigits] at h4
  omega

theorem natRepr_injective : Function.Injective Nat.repr := by
  intro a b h
  have h0 : Nat.repr 0 = "0" := rfl
  rcases Nat.eq_zero_or_pos a with ha | ha
  · rcases Nat.eq_zero_or_pos b with hb | hb
    · omega
    · subst ha
      exact (natRepr_pos_ne_zero_str b hb (h.symm.trans h0)).elim
  · rcases Nat.eq_zero_or_pos b with hb | hb
    · subst hb
      exact (natRepr_pos_ne_zero_str a ha (h.trans h0)).elim
    · exact eq_of_natRepr_eq_pos a b ha hb h


theorem runGen_generatedCodes (evs : List (String × Nat)) :
    ∀ s : PageState, (∀ e ∈ evs, ¬ trim e.1 = "") →
      (runGen s evs).generatedCodes
        = (evs.map (artifactOf s.selectedLanguage s.selectedType)).reverse ++ s.generatedCodes := by
  induction evs with
  | nil =>
    intro s _
    simp [runGen]
  | cons e evs ih =>
    intro s h
    have he : ¬ trim e.1 = "" := h e (List.mem_cons_self e evs)
    simp only [runGen]
    rw [generateCode_success_fst { s with prompt := e.1 } e.2 he]
    rw [ih _ (fun e1 he1 => h e1 (List.mem_cons_of_mem e he1))]
    simp [artifactOf, mkGeneratedCode, List.append_assoc]

/-- Claim C2: in a session of successful generate calls completing at
pairwise-distinct times, all ledger entries carry pairwise-distinct
`id` values, and no deduplication occurs: every call - repeated
(language, type, description) triples included - persists its own
artifact, so the ledger length equals the number of calls. -/
theorem generated_ids_unique (s : PageState) (evs : List (String × Nat))
    (hzero : s.generatedCodes = [])
    (hblank : ∀ e ∈ evs, ¬ trim e.1 = "")
    (htimes : (evs.map Prod.snd).Nodup) :
    ((runGen s evs).generatedCodes.map GeneratedCode.id).Nodup ∧
    (runGen s evs).generatedCodes.length = evs.length := by
  have hled := runGen_generatedCodes evs s hblank
  constructor
  · rw [hled, hzero, List.append_nil, List.map_reverse, List.nodup_reverse, List.map_map]
    rw [show (GeneratedCode.id ∘ artifactOf s.selectedLanguage s.selectedType)
          = (Nat.repr ∘ Prod.snd) from rfl]
    rw [← List.map_map]
    exact List.Nodup.map natRepr_injective htimes
  · rw [hled, hzero]
    simp

/-- Concrete instance: two calls with the same description at times 100
and 200 both persist, with distinct ids. -/
theorem generated_ids_unique_witness :
    ((runGen sampleState
        [("make a sorting function", 100), ("make a sorting function", 200)]).generatedCodes.map
      GeneratedCode.id).Nodup ∧
    (runGen sampleState
        [("make a sorting function", 100), ("make a sorting function", 200)]).generatedCodes.length
      = 2 :=
  generated_ids_unique sampleState
    [("make a sorting function", 100), ("make a sorting function", 200)]
    rfl (by decide) (by decide)


theorem foldl_appendBounded (cap : Nat) (as : List GeneratedCode) :
    ∀ led : List GeneratedCode, led.length ≤ cap →
      as.foldl (fun led a => appendBounded cap a led) led = (as.reverse ++ led).take cap := by
  induction as with
  | nil =>
    intro led h
    simp [List.take_of_length_le h]
  | cons a as ih =>
    intro led h
    simp only [List.foldl_cons, List.reverse_cons]
    rw [ih (appendBounded cap a led)
      (by simp only [appendBounded]; exact List.length_take_le cap (a :: led))]
    rw [List.append_assoc, List.singleton_append]
    rw [List.take_append_eq_append_take, List.take_append_eq_append_take]
    simp only [appendBounded]
    rw [List.take_take]
    congr 1
    exact congrArg (fun k => List.take k (a :: led)) (inf_eq_left.mpr (Nat.sub_le _ _))

theorem ledgerOf_eq_take (cap : Nat) (artifacts : List GeneratedCode) :
    ledgerOf cap artifacts = (artifacts.reverse).take cap := by
  unfold ledgerOf
  rw [foldl_appendBounded cap artifacts [] (by simp)]
  simp

/-- Claim C1: under the spec-modelled bounded retention with cap `N`,
any sequence of appends leaves at most `N` artifacts; appending an
(N+1)-th artifact (here: `a0` appended first, then `N` more) evicts the
earliest-appended `a0` and leaves exactly the later `N`, most recent
first. -/
theorem ledger_bounded_retention (N : Nat) (a0 : GeneratedCode) (rest : List GeneratedCode)
    (hrest : rest.length = N) :
    (∀ artifacts : List GeneratedCode, (ledgerOf N artifacts).length ≤ N) ∧
    ledgerOf N (a0 :: rest) = rest.reverse ∧
    (ledgerOf N (a0 :: rest)).length = N := by
  have hev : ledgerOf N (a0 :: rest) = rest.reverse := by
    rw [ledgerOf_eq_take, List.reverse_cons]
    exact List.take_left' (by simp [hrest])
  refine ⟨?_, hev, ?_⟩
  · intro artifacts
    rw [ledgerOf_eq_take]
    exact List.length_take_le _ _
  · rw [hev]
    simp [hrest]

/-- Concrete instance: cap 2, three appends; the first-appended
artifact is evicted and the two later ones remain, most recent first. -/
theorem ledger_bounded_retention_witness :
    (∀ artifacts : List GeneratedCode, (ledgerOf 2 artifacts).length ≤ 2) ∧
    ledgerOf 2 (sampleArtifact 0 :: [sampleArtifact 1, sampleArtifact 2])
      = [sampleArtifact 1, sampleArtifact 2].reverse ∧
    (ledgerOf 2 (sampleArtifact 0 :: [sampleArtifact 1, sampleArtifact 2])).length = 2 :=
  ledger_bounded_retention 2 (sampleArtifact 0) [sampleArtifact 1, sampleArtifact 2] rfl

end Collab
